import Mathlib

/-!
Shallow embedding of the HTTP rate-limit filter in
`source/common/http/filter/ratelimit.cc` (namespace `Http::RateLimit`).

Modelling conventions:
- Side effects (stat counter increments, sending response headers, resuming
  the decoder chain, calling/cancelling the decision client) are recorded as
  an explicit list of `Action`s emitted by each operation.
- The external collaborators (runtime snapshot, cluster manager, route
  configuration, decision client) are modelled as function-valued parameters;
  a cluster handle is identified with the name of its stats scope.
- Dereferencing the null cluster handle (the `// TODO: Cluster may not exist.`
  at line 35 leaves `cluster_` unchecked in `Filter::complete`) is modelled by
  the operation returning `none`.
-/

namespace Http.RateLimit

/-- Outcome delivered by the decision service (`::RateLimit::LimitStatus`). -/
inductive LimitStatus
  | OK
  | Error
  | OverLimit
deriving DecidableEq, Repr

/-- Per-request filter phase. The `.cc` file references `State::Calling`,
`State::Complete` and `State::Responded`; the initial state is declared in the
header, which is not part of the sources — its name `Idle` is modelled from
the spec ("States (Phase): `Idle` (initial) → …"). -/
inductive State
  | Idle
  | Calling
  | Complete
  | Responded
deriving DecidableEq, Repr

/-- Numeric position of a phase in the lattice Idle → Calling → Complete →
Responded, used to state monotonicity. -/
def State.rank : State → Nat
  | State.Idle => 0
  | State.Calling => 1
  | State.Complete => 2
  | State.Responded => 3

/-- One rate-limit descriptor: an ordered list of (key, value) entries
(`::RateLimit::Descriptor`). -/
structure Descriptor where
  entries : List (String × String)
deriving DecidableEq, Repr

/-- The request headers as seen by this filter: the optional x-request-id
value (`headers.RequestId()`) plus the raw header entries that the policy
rules may read. -/
structure HeaderMap where
  requestId : Option String
  entries : List (String × String)
deriving DecidableEq, Repr

/-- The part of `Router::RouteEntry` that descriptor production reads (the
`*route_entry` argument of `populateDescriptors`). It is kept as a separate
structure from `RouteEntry` below to break the type-level cycle between the
route entry and the rule functions stored in its policies. -/
structure RouteInfo where
  clusterName : String
  tag : String
deriving DecidableEq, Repr

/-- One `Router::RateLimitPolicyEntry`: its route key and its
`populateDescriptors(route, descriptors, local_service_cluster, headers,
remote_address)` behaviour, modelled as the list of descriptors it appends
for the given arguments. -/
structure RateLimitPolicyEntry where
  routeKey : String
  popDesc : RouteInfo → String → HeaderMap → String → List Descriptor

/-- A `Router::RateLimitPolicy`, seen through the only operation this filter
uses: `getApplicableRateLimit(stage)`, yielding the stage's applicable
entries in the configuration's natural order. -/
abbrev RateLimitPolicy : Type := Nat → List RateLimitPolicyEntry

/-- The resolved route: the data visible to rules, the upstream cluster name,
and the route-level and virtual-host-level rate limit policies. -/
structure RouteEntry where
  info : RouteInfo
  rateLimitPolicy : RateLimitPolicy
  vhRateLimitPolicy : RateLimitPolicy

/-- `FilterConfig`: domain, stage, local cluster name (`local_info_`), the
runtime snapshot's `featureEnabled(key, defaultPercent)`, and the cluster
manager's `get(clusterName)` returning an optional cluster handle. -/
structure FilterConfig where
  domain : String
  stage : Nat
  localClusterName : String
  runtime : String → Nat → Bool
  cm : String → Option String

/-- An observable side effect of a filter operation. -/
inductive Action
  | counterInc (scope : String) (name : String)
  | chargeResponseStat (scope : String) (code : Nat)
  | encodeHeaders (headers : List (String × String)) (end_stream : Bool)
  | setResponseFlagRateLimited
  | continueDecoding
  | limitCall (domain : String) (descriptors : List Descriptor) (requestId : String)
  | cancel
deriving DecidableEq, Repr

/-- The per-request mutable state of the filter: `state_`,
`initiating_call_`, and the resolved `cluster_` handle. -/
structure Filter where
  state : State
  initiating_call : Bool
  cluster : Option String
deriving DecidableEq, Repr

/-- A freshly constructed filter: `Idle`, not inside a call, no cluster. -/
def Filter.initial : Filter :=
  { state := State.Idle, initiating_call := false, cluster := none }

/-- How the external decision client's `limit()` behaves for this request:
it invokes the completion handler exactly once, either synchronously on the
caller's stack or asynchronously later. -/
inductive ClientBehavior
  | sync (status : LimitStatus)
  | async

/-- The per-request environment: configuration, resolved route (`none` when
`callbacks_->route()` or `route->routeEntry()` is null), the downstream
address, and the decision client's behaviour. -/
structure Env where
  cfg : FilterConfig
  route : Option RouteEntry
  downstreamAddress : String
  client : ClientBehavior

inductive FilterHeadersStatus
  | Continue
  | StopIteration
deriving DecidableEq, Repr

inductive FilterDataStatus
  | Continue
  | StopIterationAndBuffer
deriving DecidableEq, Repr

inductive FilterTrailersStatus
  | Continue
  | StopIteration
deriving DecidableEq, Repr

/-- `Filter::TOO_MANY_REQUESTS_HEADER` (lines 23-24): a header map holding
only the `:status` header set to 429. -/
def TOO_MANY_REQUESTS_HEADER : List (String × String) :=
  [(":status", "429")]

/-- `Filter::populateRateLimitDescriptors` (lines 112-127). For each
applicable entry of the policy at the configured stage: skip it when its
route key is non-empty and the per-route runtime gate
`ratelimit.<routeKey>.http_filter_enabled` (default 100) is disabled
(`fmt::format` is modelled by string concatenation); otherwise append the
descriptors it produces for (route entry, local cluster name, headers,
downstream address). -/
def populateRateLimitDescriptors (cfg : FilterConfig) (addr : String)
    (rate_limit_policy : RateLimitPolicy) (descriptors : List Descriptor)
    (route_entry : RouteInfo) (headers : HeaderMap) : List Descriptor :=
  (rate_limit_policy cfg.stage).foldl
    (fun acc rate_limit =>
      if rate_limit.routeKey ≠ "" ∧
          cfg.runtime ("ratelimit." ++ rate_limit.routeKey ++ ".http_filter_enabled") 100
            = false then
        acc
      else
        acc ++ rate_limit.popDesc route_entry cfg.localClusterName headers addr)
    descriptors

/-- `Filter::complete` (lines 82-110): set `state_` to `Complete`; charge the
outcome counter on the cluster's stats scope (and, for `OverLimit`, the
response-code stat for the 429 template); if over limit and the enforcing
gate `ratelimit.http_filter_enforcing` (default 100) is enabled, move to
`Responded`, send the 429 header-only response downstream and set the
rate-limited response flag; otherwise resume decoding unless still inside
the initiating call. `none` models the null-pointer dereference of
`cluster_->statsScope()` when the cluster did not resolve. -/
def complete (cfg : FilterConfig) (f : Filter) (status : LimitStatus) :
    Option (Filter × List Action) :=
  let f1 : Filter := { f with state := State.Complete }
  match f1.cluster with
  | none => none
  | some cl =>
    let stat_actions : List Action :=
      match status with
      | LimitStatus.OK => [Action.counterInc cl "ratelimit.ok"]
      | LimitStatus.Error => [Action.counterInc cl "ratelimit.error"]
      | LimitStatus.OverLimit =>
          [Action.counterInc cl "ratelimit.over_limit",
           Action.chargeResponseStat cl 429]
    if status = LimitStatus.OverLimit ∧
        cfg.runtime "ratelimit.http_filter_enforcing" 100 = true then
      some ({ f1 with state := State.Responded },
        stat_actions ++
          [Action.encodeHeaders TOO_MANY_REQUESTS_HEADER true,
           Action.setResponseFlagRateLimited])
    else if f1.initiating_call = false then
      some (f1, stat_actions ++ [Action.continueDecoding])
    else
      some (f1, stat_actions)

/-- The route-level descriptors followed by the virtual-host-level
descriptors, exactly as accumulated by the two
`populateRateLimitDescriptors` calls in `Filter::decodeHeaders`
(lines 38-45). -/
def combinedDescriptors (cfg : FilterConfig) (addr : String)
    (route_entry : RouteEntry) (headers : HeaderMap) : List Descriptor :=
  populateRateLimitDescriptors cfg addr route_entry.vhRateLimitPolicy
    (populateRateLimitDescriptors cfg addr route_entry.rateLimitPolicy []
      route_entry.info headers)
    route_entry.info headers

/-- `Filter::decodeHeaders` (lines 26-59): if the global gate
`ratelimit.http_filter_enabled` (default 100) is disabled, continue
untouched; otherwise, when a route entry resolves, look up its cluster,
evaluate the route-level then virtual-host-level policies, and if any
descriptors result move to `Calling`, raise the initiating flag, invoke the
decision client's `limit` (which may run `complete` synchronously) and lower
the flag; finally pause the chain iff the state is now `Calling` or
`Responded`. `none` propagates a crash inside a synchronous `complete`. -/
def decodeHeaders (env : Env) (f : Filter) (headers : HeaderMap) :
    Option (Filter × FilterHeadersStatus × List Action) :=
  if env.cfg.runtime "ratelimit.http_filter_enabled" 100 = false then
    some (f, FilterHeadersStatus.Continue, [])
  else
    let afterRoute : Option (Filter × List Action) :=
      match env.route with
      | none => some (f, [])
      | some route_entry =>
        let f1 : Filter := { f with cluster := env.cfg.cm route_entry.info.clusterName }
        let descriptors := combinedDescriptors env.cfg env.downstreamAddress
          route_entry headers
        if descriptors = [] then
          some (f1, [])
        else
          let f2 : Filter := { f1 with state := State.Calling, initiating_call := true }
          let call := Action.limitCall env.cfg.domain descriptors
            (headers.requestId.getD "")
          match env.client with
          | ClientBehavior.async =>
              some ({ f2 with initiating_call := false }, [call])
          | ClientBehavior.sync status =>
              match complete env.cfg f2 status with
              | none => none
              | some (f3, acts) =>
                  some ({ f3 with initiating_call := false }, call :: acts)
    match afterRoute with
    | none => none
    | some (fr, acts) =>
        some (fr,
          if fr.state = State.Calling ∨ fr.state = State.Responded then
            FilterHeadersStatus.StopIteration
          else
            FilterHeadersStatus.Continue,
          acts)

/-- `Filter::decodeData` (lines 61-65). `none` models the
`ASSERT(state_ != State::Responded)` defensive fault. -/
def decodeData (f : Filter) : Option FilterDataStatus :=
  if f.state = State.Responded then none
  else if f.state = State.Calling then some FilterDataStatus.StopIterationAndBuffer
  else some FilterDataStatus.Continue

/-- `Filter::decodeTrailers` (lines 67-71). `none` models the
`ASSERT(state_ != State::Responded)` defensive fault. -/
def decodeTrailers (f : Filter) : Option FilterTrailersStatus :=
  if f.state = State.Responded then none
  else if f.state = State.Calling then some FilterTrailersStatus.StopIteration
  else some FilterTrailersStatus.Continue

/-- The reset-stream observer registered by
`Filter::setDecoderFilterCallbacks` (lines 73-80): when the stream resets
while `Calling`, cancel the outstanding decision call; otherwise do
nothing. The filter state itself is untouched. -/
def onResetStream (f : Filter) : Filter × List Action :=
  if f.state = State.Calling then (f, [Action.cancel]) else (f, [])

/-- Spec-order view of one policy's evaluation: the descriptors of each
entry in encounter order, a gated entry (non-empty route key whose
per-route gate is disabled) contributing the empty list. -/
def entriesDescriptors (cfg : FilterConfig) (addr : String) :
    List RateLimitPolicyEntry → RouteInfo → HeaderMap → List Descriptor
  | [], _, _ => []
  | rl :: tl, route_entry, headers =>
    (if rl.routeKey ≠ "" ∧
        cfg.runtime ("ratelimit." ++ rl.routeKey ++ ".http_filter_enabled") 100
          = false then
      []
    else
      rl.popDesc route_entry cfg.localClusterName headers addr)
      ++ entriesDescriptors cfg addr tl route_entry headers

/-- The fold in `populateRateLimitDescriptors` appends, after the incoming
accumulator, exactly the per-entry descriptors in encounter order. -/
theorem populateRateLimitDescriptors_eq (cfg : FilterConfig) (addr : String)
    (rate_limit_policy : RateLimitPolicy) (descriptors : List Descriptor)
    (route_entry : RouteInfo) (headers : HeaderMap) :
    populateRateLimitDescriptors cfg addr rate_limit_policy descriptors
        route_entry headers
      = descriptors
        ++ entriesDescriptors cfg addr (rate_limit_policy cfg.stage)
             route_entry headers := by
  unfold populateRateLimitDescriptors
  generalize rate_limit_policy cfg.stage = l
  induction l generalizing descriptors with
  | nil => simp [entriesDescriptors]
  | cons rl tl ih =>
    simp only [List.foldl_cons, entriesDescriptors]
    by_cases hgate : rl.routeKey ≠ "" ∧
        cfg.runtime ("ratelimit." ++ rl.routeKey ++ ".http_filter_enabled") 100
          = false
    · simp only [if_pos hgate, ih, List.nil_append]
    · simp only [if_neg hgate, ih, List.append_assoc]

/-- `entriesDescriptors` distributes over list append (encounter order is
preserved across concatenated rule lists). -/
theorem entriesDescriptors_append (cfg : FilterConfig) (addr : String)
    (l1 l2 : List RateLimitPolicyEntry) (route_entry : RouteInfo)
    (headers : HeaderMap) :
    entriesDescriptors cfg addr (l1 ++ l2) route_entry headers
      = entriesDescriptors cfg addr l1 route_entry headers
        ++ entriesDescriptors cfg addr l2 route_entry headers := by
  induction l1 with
  | nil => simp [entriesDescriptors]
  | cons rl tl ih =>
    simp only [List.cons_append, entriesDescriptors, List.append_eq, ih,
      List.append_assoc]

/-- An external event delivered to the filter after `decodeHeaders` issued
an asynchronous decision call: a stream reset or the decision service's
completion. -/
inductive Event
  | reset
  | completion (status : LimitStatus)

/-- A stream carrying the filter together with whether `cancel()` has been
issued for the outstanding decision call. -/
structure Stream where
  filter : Filter
  cancelled : Bool

/-- Modelled from the spec: the Decision Client implementation is external
(§4.3) — `cancel()` "suppresses the eventual completion (the handler must
not fire afterward)". Delivering an event to the stream: a reset runs the
registered observer (recording whether it issued `cancel()`); a completion
is dropped by the client when cancelled, and otherwise runs
`Filter::complete`. -/
def stepEvent (cfg : FilterConfig) (s : Stream) (e : Event) :
    Option (Stream × List Action) :=
  match e with
  | Event.reset =>
    let r := onResetStream s.filter
    some ({ filter := r.1,
            cancelled := s.cancelled || (s.filter.state == State.Calling) }, r.2)
  | Event.completion status =>
    if s.cancelled then
      some (s, [])
    else
      match complete cfg s.filter status with
      | none => none
      | some (f, acts) => some ({ filter := f, cancelled := s.cancelled }, acts)

/-! Concrete fixtures used by the witness theorems. -/

/-- A request with a request id and one ordinary header. -/
def testHeaders : HeaderMap :=
  { requestId := some "req-1", entries := [("x-forwarded-for", "203.0.113.9")] }

/-- An always-applicable rule (empty route key) producing one descriptor. -/
def testRule : RateLimitPolicyEntry :=
  { routeKey := ""
    popDesc := fun _ _ _ _ => [{ entries := [("user", "bob")] }] }

/-- A rule guarded by the route key "gated". -/
def gatedRule : RateLimitPolicyEntry :=
  { routeKey := "gated"
    popDesc := fun _ _ _ _ => [{ entries := [("path", "/admin")] }] }

def testRouteInfo : RouteInfo :=
  { clusterName := "service_x", tag := "route_a" }

def testRoute : RouteEntry :=
  { info := testRouteInfo
    rateLimitPolicy := fun _ => [testRule]
    vhRateLimitPolicy := fun _ => [] }

/-- Config whose runtime gates are all enabled and whose cluster manager
resolves every name to the cluster "c". -/
def testCfg : FilterConfig :=
  { domain := "test-domain", stage := 0, localClusterName := "local_service"
    runtime := fun _ _ => true, cm := fun _ => some "c" }

/-- Same as `testCfg` but the cluster manager resolves nothing. -/
def ghostCfg : FilterConfig :=
  { domain := "test-domain", stage := 0, localClusterName := "local_service"
    runtime := fun _ _ => true, cm := fun _ => none }

/-- Config whose global gate (and every other gate) is disabled. -/
def offCfg : FilterConfig :=
  { domain := "test-domain", stage := 0, localClusterName := "local_service"
    runtime := fun _ _ => false, cm := fun _ => some "c" }

/-- A filter with an outstanding decision call and a resolved cluster. -/
def testFilterCalling : Filter :=
  { state := State.Calling, initiating_call := false, cluster := some "c" }

/-- The filter state after a first completion with a continue outcome. -/
def testFilterDone : Filter :=
  { state := State.Complete, initiating_call := false, cluster := some "c" }

/-- C1: when the decision call completes with `OverLimit` and the enforcing
gate `ratelimit.http_filter_enforcing` (default 100) reports enabled,
`complete` moves the phase to `Responded` and emits, in order: one increment
of the cluster counter `ratelimit.over_limit`, one response-code stat charge
for 429, exactly one synthesized response consisting of the 429 status
header only with the stream ended (no body), and the rate-limited diagnostic
flag; it never resumes decoding towards the upstream. -/
theorem C1_overLimit_enforcing_responds_429 (cfg : FilterConfig) (f : Filter)
    (cl : String) (hcl : f.cluster = some cl)
    (henf : cfg.runtime "ratelimit.http_filter_enforcing" 100 = true) :
    complete cfg f LimitStatus.OverLimit =
      some ({ f with state := State.Responded },
        [Action.counterInc cl "ratelimit.over_limit",
         Action.chargeResponseStat cl 429,
         Action.encodeHeaders TOO_MANY_REQUESTS_HEADER true,
         Action.setResponseFlagRateLimited])
    ∧ ({ f with state := State.Responded } : Filter).state = State.Responded
    ∧ [Action.counterInc cl "ratelimit.over_limit",
       Action.chargeResponseStat cl 429,
       Action.encodeHeaders TOO_MANY_REQUESTS_HEADER true,
       Action.setResponseFlagRateLimited].count
        (Action.counterInc cl "ratelimit.over_limit") = 1
    ∧ [Action.counterInc cl "ratelimit.over_limit",
       Action.chargeResponseStat cl 429,
       Action.encodeHeaders TOO_MANY_REQUESTS_HEADER true,
       Action.setResponseFlagRateLimited].count
        (Action.chargeResponseStat cl 429) = 1
    ∧ [Action.counterInc cl "ratelimit.over_limit",
       Action.chargeResponseStat cl 429,
       Action.encodeHeaders TOO_MANY_REQUESTS_HEADER true,
       Action.setResponseFlagRateLimited].count
        (Action.encodeHeaders TOO_MANY_REQUESTS_HEADER true) = 1
    ∧ (∀ hs b, Action.encodeHeaders hs b ∈
        [Action.counterInc cl "ratelimit.over_limit",
         Action.chargeResponseStat cl 429,
         Action.encodeHeaders TOO_MANY_REQUESTS_HEADER true,
         Action.setResponseFlagRateLimited] →
        hs = TOO_MANY_REQUESTS_HEADER ∧ b = true)
    ∧ Action.continueDecoding ∉
        [Action.counterInc cl "ratelimit.over_limit",
         Action.chargeResponseStat cl 429,
         Action.encodeHeaders TOO_MANY_REQUESTS_HEADER true,
         Action.setResponseFlagRateLimited] := by
  refine ⟨?_, rfl, ?_, ?_, ?_, ?_, ?_⟩
  · simp [complete, hcl, henf]
  · simp [List.count_cons, List.count_nil]
  · simp [List.count_cons, List.count_nil]
  · simp [List.count_cons, List.count_nil]
  · intro hs b hmem
    simp only [List.mem_cons, List.not_mem_nil, or_false] at hmem
    rcases hmem with h | h | h | h
    · cases h
    · cases h
    · injection h with h1 h2
      exact ⟨h1, h2⟩
    · cases h
  · simp

/-- Witness for C1 at a concrete over-limit completion. -/
theorem C1_overLimit_enforcing_responds_429_witness :
    complete testCfg testFilterCalling LimitStatus.OverLimit =
      some ({ testFilterCalling with state := State.Responded },
        [Action.counterInc "c" "ratelimit.over_limit",
         Action.chargeResponseStat "c" 429,
         Action.encodeHeaders TOO_MANY_REQUESTS_HEADER true,
         Action.setResponseFlagRateLimited]) :=
  (C1_overLimit_enforcing_responds_429 testCfg testFilterCalling "c" rfl rfl).1

/-- C2: when the decision call completes with `Error`, the filter fails
open for any runtime configuration: it emits exactly one increment of
`ratelimit.error`, no synthesized response and no response-code stat, the
phase becomes `Complete` (not `Responded`), and it explicitly resumes the
paused chain via `continueDecoding` exactly when the completion runs after
the initiating call returned. -/
theorem C2_error_fails_open (cfg : FilterConfig) (f : Filter) (cl : String)
    (hcl : f.cluster = some cl) :
    complete cfg f LimitStatus.Error =
      some ({ f with state := State.Complete },
        if f.initiating_call = false then
          [Action.counterInc cl "ratelimit.error", Action.continueDecoding]
        else
          [Action.counterInc cl "ratelimit.error"])
    ∧ ({ f with state := State.Complete } : Filter).state = State.Complete
    ∧ (if f.initiating_call = false then
        [Action.counterInc cl "ratelimit.error", Action.continueDecoding]
      else
        [Action.counterInc cl "ratelimit.error"]).count
        (Action.counterInc cl "ratelimit.error") = 1
    ∧ (∀ hs b, Action.encodeHeaders hs b ∉
        (if f.initiating_call = false then
          [Action.counterInc cl "ratelimit.error", Action.continueDecoding]
        else
          [Action.counterInc cl "ratelimit.error"]))
    ∧ (∀ sc n, Action.chargeResponseStat sc n ∉
        (if f.initiating_call = false then
          [Action.counterInc cl "ratelimit.error", Action.continueDecoding]
        else
          [Action.counterInc cl "ratelimit.error"]))
    ∧ (f.initiating_call = false →
        Action.continueDecoding ∈
          (if f.initiating_call = false then
            [Action.counterInc cl "ratelimit.error", Action.continueDecoding]
          else
            [Action.counterInc cl "ratelimit.error"])) := by
  refine ⟨?_, rfl, ?_, ?_, ?_, ?_⟩
  · by_cases hic : f.initiating_call = false
    · simp [complete, hcl, hic]
    · simp [complete, hcl, hic]
  · split <;> simp [List.count_cons, List.count_nil]
  · intro hs b
    split <;> simp
  · intro sc n
    split <;> simp
  · intro hic
    simp [hic]

/-- Witness for C2 at a concrete errored completion. -/
theorem C2_error_fails_open_witness :
    complete testCfg testFilterCalling LimitStatus.Error =
      some ({ testFilterCalling with state := State.Complete },
        if testFilterCalling.initiating_call = false then
          [Action.counterInc "c" "ratelimit.error", Action.continueDecoding]
        else
          [Action.counterInc "c" "ratelimit.error"]) :=
  (C2_error_fails_open testCfg testFilterCalling "c" rfl).1

/-- C3: when the decision client completes synchronously inside `limit()`
(the initiating flag is still raised) with an outcome that resolves to
continue (not `OverLimit`-with-enforcement), `complete` leaves the phase at
`Complete` and emits no `continueDecoding`, and `decodeHeaders`' post-call
check yields `Continue` — the chain is never paused and never resumed
twice. -/
theorem C3_sync_continue_not_paused (env : Env) (f : Filter)
    (headers : HeaderMap) (re : RouteEntry) (cl : String) (st : LimitStatus)
    (hgate : env.cfg.runtime "ratelimit.http_filter_enabled" 100 = true)
    (hroute : env.route = some re)
    (hcl : env.cfg.cm re.info.clusterName = some cl)
    (hclient : env.client = ClientBehavior.sync st)
    (hf : f.state = State.Idle)
    (hdesc : combinedDescriptors env.cfg env.downstreamAddress re headers ≠ [])
    (hnoresp : ¬(st = LimitStatus.OverLimit ∧
        env.cfg.runtime "ratelimit.http_filter_enforcing" 100 = true)) :
    decodeHeaders env f headers =
      some ({ state := State.Complete, initiating_call := false,
              cluster := some cl },
        FilterHeadersStatus.Continue,
        Action.limitCall env.cfg.domain
            (combinedDescriptors env.cfg env.downstreamAddress re headers)
            (headers.requestId.getD "")
          :: (match st with
              | LimitStatus.OK => [Action.counterInc cl "ratelimit.ok"]
              | LimitStatus.Error => [Action.counterInc cl "ratelimit.error"]
              | LimitStatus.OverLimit =>
                  [Action.counterInc cl "ratelimit.over_limit",
                   Action.chargeResponseStat cl 429]))
    ∧ Action.continueDecoding ∉
        (Action.limitCall env.cfg.domain
            (combinedDescriptors env.cfg env.downstreamAddress re headers)
            (headers.requestId.getD "")
          :: (match st with
              | LimitStatus.OK => [Action.counterInc cl "ratelimit.ok"]
              | LimitStatus.Error => [Action.counterInc cl "ratelimit.error"]
              | LimitStatus.OverLimit =>
                  [Action.counterInc cl "ratelimit.over_limit",
                   Action.chargeResponseStat cl 429])) := by
  cases st with
  | OK =>
    constructor
    · simp [decodeHeaders, hgate, hroute, hclient, hcl, hdesc, complete]
    · simp
  | Error =>
    constructor
    · simp [decodeHeaders, hgate, hroute, hclient, hcl, hdesc, complete]
    · simp
  | OverLimit =>
    have henf : env.cfg.runtime "ratelimit.http_filter_enforcing" 100 = false := by
      rcases Bool.eq_false_or_eq_true
          (env.cfg.runtime "ratelimit.http_filter_enforcing" 100) with h | h
      · exact absurd ⟨rfl, h⟩ hnoresp
      · exact h
    constructor
    · simp [decodeHeaders, hgate, hroute, hclient, hcl, hdesc, complete, henf]
    · simp

/-- Witness for C3: a synchronous `OK` completion on a concrete request. -/
theorem C3_sync_continue_not_paused_witness :
    decodeHeaders
        { cfg := testCfg, route := some testRoute,
          downstreamAddress := "10.0.0.1",
          client := ClientBehavior.sync LimitStatus.OK }
        Filter.initial testHeaders =
      some ({ state := State.Complete, initiating_call := false,
              cluster := some "c" },
        FilterHeadersStatus.Continue,
        Action.limitCall testCfg.domain
            (combinedDescriptors testCfg "10.0.0.1" testRoute testHeaders)
            (testHeaders.requestId.getD "")
          :: [Action.counterInc "c" "ratelimit.ok"]) :=
  (C3_sync_continue_not_paused
    { cfg := testCfg, route := some testRoute, downstreamAddress := "10.0.0.1",
      client := ClientBehavior.sync LimitStatus.OK }
    Filter.initial testHeaders testRoute "c" LimitStatus.OK
    rfl rfl rfl rfl rfl (by decide) (by decide)).1

/-- C4: when the combined evaluated descriptor sequence (route-level rules
then virtual-host-level rules) is empty, `decodeHeaders` issues no decision
call, emits no actions at all, leaves the phase at `Idle`, and returns
`Continue` — the chain is never paused. -/
theorem C4_empty_descriptors_no_call (env : Env) (f : Filter)
    (headers : HeaderMap) (re : RouteEntry)
    (hf : f.state = State.Idle)
    (hroute : env.route = some re)
    (hdesc : combinedDescriptors env.cfg env.downstreamAddress re headers = []) :
    decodeHeaders env f headers =
      some ((if env.cfg.runtime "ratelimit.http_filter_enabled" 100 = false
             then f
             else { f with cluster := env.cfg.cm re.info.clusterName }),
        FilterHeadersStatus.Continue, ([] : List Action))
    ∧ ((if env.cfg.runtime "ratelimit.http_filter_enabled" 100 = false
        then f
        else { f with cluster := env.cfg.cm re.info.clusterName }) : Filter).state
        = State.Idle
    ∧ (∀ d ds rid, Action.limitCall d ds rid ∉ ([] : List Action)) := by
  by_cases hg : env.cfg.runtime "ratelimit.http_filter_enabled" 100 = false
  · refine ⟨?_, ?_, ?_⟩
    · simp [decodeHeaders, hg]
    · simp [hg, hf]
    · simp
  · refine ⟨?_, ?_, ?_⟩
    · simp [decodeHeaders, hg, hroute, hdesc, hf]
    · simp [hg, hf]
    · simp

/-- Witness for C4: a route whose policies produce no descriptors. -/
theorem C4_empty_descriptors_no_call_witness :
    decodeHeaders
        { cfg := testCfg,
          route := some { info := testRouteInfo,
                          rateLimitPolicy := fun _ => [],
                          vhRateLimitPolicy := fun _ => [] },
          downstreamAddress := "10.0.0.1", client := ClientBehavior.async }
        Filter.initial testHeaders =
      some ((if testCfg.runtime "ratelimit.http_filter_enabled" 100 = false
             then Filter.initial
             else { Filter.initial with cluster := testCfg.cm testRouteInfo.clusterName }),
        FilterHeadersStatus.Continue, ([] : List Action)) :=
  (C4_empty_descriptors_no_call
    { cfg := testCfg,
      route := some { info := testRouteInfo,
                      rateLimitPolicy := fun _ => [],
                      vhRateLimitPolicy := fun _ => [] },
      downstreamAddress := "10.0.0.1", client := ClientBehavior.async }
    Filter.initial testHeaders
    { info := testRouteInfo, rateLimitPolicy := fun _ => [],
      vhRateLimitPolicy := fun _ => [] }
    rfl rfl (by decide)).1

/-- C5: phases move monotonically through Idle → Calling → Complete →
Responded: `decodeHeaders` run from the initial `Idle` phase never lowers
the rank; `complete`, run while a call is outstanding (`Calling`), strictly
raises it; and the reset observer leaves the filter state untouched. -/
theorem C5_phase_monotone :
    (∀ (env : Env) (f : Filter) (headers : HeaderMap) (f' : Filter)
        (s : FilterHeadersStatus) (acts : List Action),
        f.state = State.Idle →
        decodeHeaders env f headers = some (f', s, acts) →
        f.state.rank ≤ f'.state.rank)
    ∧ (∀ (cfg : FilterConfig) (f : Filter) (status : LimitStatus)
        (f' : Filter) (acts : List Action),
        f.state = State.Calling →
        complete cfg f status = some (f', acts) →
        f.state.rank < f'.state.rank)
    ∧ (∀ f : Filter, (onResetStream f).1 = f) := by
  refine ⟨?_, ?_, ?_⟩
  · intro env f headers f' s acts hf _
    simp [hf, State.rank]
  · intro cfg f status f' acts hf h
    rcases hclo : f.cluster with _ | cl
    · simp [complete, hclo] at h
    · simp only [complete, hclo] at h
      split at h
      · injection h with h1
        injection h1 with h2 h3
        rw [hf, ← h2]
        simp [State.rank]
      · split at h
        · injection h with h1
          injection h1 with h2 h3
          rw [hf, ← h2]
          simp [State.rank]
        · injection h with h1
          injection h1 with h2 h3
          rw [hf, ← h2]
          simp [State.rank]
  · intro f
    unfold onResetStream
    split
    · rfl
    · rfl

/-- Witness for C5: the gate-disabled header pass, an `OK` completion from
`Calling`, and the reset observer on the initial filter. -/
theorem C5_phase_monotone_witness :
    Filter.initial.state.rank ≤ Filter.initial.state.rank
    ∧ testFilterCalling.state.rank < testFilterDone.state.rank
    ∧ (onResetStream Filter.initial).1 = Filter.initial :=
  ⟨C5_phase_monotone.1
      { cfg := offCfg, route := none, downstreamAddress := "",
        client := ClientBehavior.async }
      Filter.initial testHeaders Filter.initial FilterHeadersStatus.Continue []
      rfl rfl,
   C5_phase_monotone.2.1 testCfg testFilterCalling LimitStatus.OK
      testFilterDone
      [Action.counterInc "c" "ratelimit.ok", Action.continueDecoding]
      rfl (by decide),
   C5_phase_monotone.2.2 Filter.initial⟩

/-- C6: the reset observer cancels the outstanding decision call exactly
once when it fires while `Calling` (and records the cancellation on the
stream), does nothing when the phase is not `Calling`, and — by the
decision client's contract, modelled in `stepEvent` — a completion
delivered after cancellation causes no state change and no actions. -/
theorem C6_reset_cancels_exactly_once :
    (∀ f : Filter, f.state = State.Calling →
        onResetStream f = (f, [Action.cancel])
        ∧ (onResetStream f).2.count Action.cancel = 1)
    ∧ (∀ f : Filter, f.state ≠ State.Calling → onResetStream f = (f, []))
    ∧ (∀ (cfg : FilterConfig) (s : Stream),
        s.filter.state = State.Calling →
        stepEvent cfg s Event.reset =
          some ({ filter := s.filter, cancelled := true }, [Action.cancel]))
    ∧ (∀ (cfg : FilterConfig) (s : Stream) (status : LimitStatus),
        s.cancelled = true →
        stepEvent cfg s (Event.completion status) = some (s, [])) := by
  refine ⟨?_, ?_, ?_, ?_⟩
  · intro f hf
    constructor
    · simp [onResetStream, hf]
    · simp [onResetStream, hf]
  · intro f hf
    simp [onResetStream, hf]
  · intro cfg s hf
    simp [stepEvent, onResetStream, hf]
  · intro cfg s status hc
    simp [stepEvent, hc]

/-- Witness for C6 at concrete streams in and out of `Calling`. -/
theorem C6_reset_cancels_exactly_once_witness :
    onResetStream testFilterCalling = (testFilterCalling, [Action.cancel])
    ∧ onResetStream Filter.initial = (Filter.initial, [])
    ∧ stepEvent testCfg { filter := testFilterCalling, cancelled := false }
        Event.reset =
        some ({ filter := testFilterCalling, cancelled := true },
          [Action.cancel])
    ∧ stepEvent testCfg { filter := testFilterCalling, cancelled := true }
        (Event.completion LimitStatus.OverLimit) =
        some ({ filter := testFilterCalling, cancelled := true }, []) :=
  ⟨(C6_reset_cancels_exactly_once.1 testFilterCalling rfl).1,
   C6_reset_cancels_exactly_once.2.1 Filter.initial (by decide),
   C6_reset_cancels_exactly_once.2.2.1 testCfg
     { filter := testFilterCalling, cancelled := false } rfl,
   C6_reset_cancels_exactly_once.2.2.2 testCfg
     { filter := testFilterCalling, cancelled := true }
     LimitStatus.OverLimit rfl⟩

/-- C7: the code does NOT guard against an unresolvable cluster. For a
request whose route names a cluster the cluster manager cannot resolve,
a completing decision call dereferences the null `cluster_` handle in
`Filter::complete` (the `// TODO: Cluster may not exist.` at line 35 is
left unaddressed): the run crashes (`none`) instead of skipping statistics
and letting the request proceed. -/
theorem C7_unresolved_cluster_crashes :
    decodeHeaders
        { cfg := ghostCfg, route := some testRoute,
          downstreamAddress := "10.0.0.1",
          client := ClientBehavior.sync LimitStatus.OK }
        Filter.initial testHeaders = none
    ∧ complete ghostCfg
        { state := State.Calling, initiating_call := false, cluster := none }
        LimitStatus.OK = none := by
  constructor
  · decide
  · decide

/-- C8: a rule with a non-empty route key whose per-route gate
`ratelimit.<routeKey>.http_filter_enabled` reports disabled contributes
zero descriptors — the evaluation over the rule list with it is the
evaluation over the rule list without it, whatever its production function
is, and the surrounding rules are unaffected — while a rule with an empty
route key is never gated: its descriptors always appear, in place. -/
theorem C8_route_key_gate (cfg : FilterConfig) (addr : String)
    (route_entry : RouteInfo) (headers : HeaderMap) (desc : List Descriptor)
    (l1 l2 : List RateLimitPolicyEntry) (e : RateLimitPolicyEntry) :
    (e.routeKey ≠ "" →
      cfg.runtime ("ratelimit." ++ e.routeKey ++ ".http_filter_enabled") 100
          = false →
      populateRateLimitDescriptors cfg addr (fun _ => l1 ++ e :: l2) desc
          route_entry headers
        = populateRateLimitDescriptors cfg addr (fun _ => l1 ++ l2) desc
            route_entry headers)
    ∧ (e.routeKey = "" →
      populateRateLimitDescriptors cfg addr (fun _ => l1 ++ e :: l2) desc
          route_entry headers
        = desc ++ entriesDescriptors cfg addr l1 route_entry headers
            ++ e.popDesc route_entry cfg.localClusterName headers addr
            ++ entriesDescriptors cfg addr l2 route_entry headers) := by
  constructor
  · intro hk hgate
    simp [populateRateLimitDescriptors_eq, entriesDescriptors_append,
      entriesDescriptors, hk, hgate]
  · intro hk
    simp [populateRateLimitDescriptors_eq, entriesDescriptors_append,
      entriesDescriptors, hk]

/-- Witness for C8: the gated rule vanishes when its gate is off; the
ungated rule's descriptors always appear. -/
theorem C8_route_key_gate_witness :
    populateRateLimitDescriptors
        { domain := "test-domain", stage := 0,
          localClusterName := "local_service",
          runtime := fun k _ => k ≠ "ratelimit.gated.http_filter_enabled",
          cm := fun _ => some "c" }
        "10.0.0.1" (fun _ => [testRule] ++ gatedRule :: [testRule]) []
        testRouteInfo testHeaders
      = populateRateLimitDescriptors
          { domain := "test-domain", stage := 0,
            localClusterName := "local_service",
            runtime := fun k _ => k ≠ "ratelimit.gated.http_filter_enabled",
            cm := fun _ => some "c" }
          "10.0.0.1" (fun _ => [testRule] ++ [testRule]) []
          testRouteInfo testHeaders
    ∧ populateRateLimitDescriptors testCfg "10.0.0.1"
        (fun _ => [gatedRule] ++ testRule :: []) [] testRouteInfo testHeaders
      = [] ++ entriesDescriptors testCfg "10.0.0.1" [gatedRule]
            testRouteInfo testHeaders
          ++ testRule.popDesc testRouteInfo testCfg.localClusterName
              testHeaders "10.0.0.1"
          ++ entriesDescriptors testCfg "10.0.0.1" [] testRouteInfo
              testHeaders :=
  ⟨(C8_route_key_gate
      { domain := "test-domain", stage := 0,
        localClusterName := "local_service",
        runtime := fun k _ => k ≠ "ratelimit.gated.http_filter_enabled",
        cm := fun _ => some "c" }
      "10.0.0.1" testRouteInfo testHeaders [] [testRule] [testRule]
      gatedRule).1 (by decide) (by decide),
   (C8_route_key_gate testCfg "10.0.0.1" testRouteInfo testHeaders []
      [gatedRule] [] testRule).2 rfl⟩

/-- `entriesDescriptors` depends on the configuration only through the
runtime oracle and the local cluster name. -/
theorem entriesDescriptors_congr (cfg₁ cfg₂ : FilterConfig) (addr : String)
    (l : List RateLimitPolicyEntry) (route_entry : RouteInfo)
    (headers : HeaderMap)
    (hrt : cfg₁.runtime = cfg₂.runtime)
    (hlocal : cfg₁.localClusterName = cfg₂.localClusterName) :
    entriesDescriptors cfg₁ addr l route_entry headers
      = entriesDescriptors cfg₂ addr l route_entry headers := by
  induction l with
  | nil => rfl
  | cons rl tl ih =>
    simp only [entriesDescriptors, hrt, hlocal, ih]

/-- C9: descriptor evaluation is deterministic — it depends only on the
rules, stage, route context, headers, local service name, downstream
address and sampling-oracle answers (in particular not on the domain or
the cluster manager) — and order-preserving: the combined sequence is the
route-level rules' descriptors followed by the virtual-host-level rules'
descriptors, each policy contributing its rules' descriptors in encounter
order (`entriesDescriptors`). -/
theorem C9_deterministic_ordered (cfg₁ cfg₂ : FilterConfig)
    (addr₁ addr₂ : String) (re₁ re₂ : RouteEntry) (h₁ h₂ : HeaderMap)
    (hstage : cfg₁.stage = cfg₂.stage)
    (hrt : cfg₁.runtime = cfg₂.runtime)
    (hlocal : cfg₁.localClusterName = cfg₂.localClusterName)
    (haddr : addr₁ = addr₂) (hre : re₁ = re₂) (hh : h₁ = h₂) :
    combinedDescriptors cfg₁ addr₁ re₁ h₁ = combinedDescriptors cfg₂ addr₂ re₂ h₂
    ∧ combinedDescriptors cfg₁ addr₁ re₁ h₁
        = entriesDescriptors cfg₁ addr₁ (re₁.rateLimitPolicy cfg₁.stage)
            re₁.info h₁
          ++ entriesDescriptors cfg₁ addr₁ (re₁.vhRateLimitPolicy cfg₁.stage)
              re₁.info h₁ := by
  subst haddr hre hh
  have hent : ∀ (l : List RateLimitPolicyEntry) (ri : RouteInfo)
      (hm : HeaderMap),
      entriesDescriptors cfg₁ addr₁ l ri hm
        = entriesDescriptors cfg₂ addr₁ l ri hm :=
    fun l ri hm => entriesDescriptors_congr cfg₁ cfg₂ addr₁ l ri hm hrt hlocal
  constructor
  · simp [combinedDescriptors, populateRateLimitDescriptors_eq, hstage, hent]
  · simp [combinedDescriptors, populateRateLimitDescriptors_eq]

/-- Witness for C9: two configurations differing only in domain and
cluster manager produce the same descriptors, in route-then-vhost order. -/
theorem C9_deterministic_ordered_witness :
    combinedDescriptors testCfg "10.0.0.1" testRoute testHeaders
      = combinedDescriptors
          { domain := "other-domain", stage := 0,
            localClusterName := "local_service",
            runtime := fun _ _ => true, cm := fun _ => none }
          "10.0.0.1" testRoute testHeaders :=
  (C9_deterministic_ordered testCfg
    { domain := "other-domain", stage := 0,
      localClusterName := "local_service",
      runtime := fun _ _ => true, cm := fun _ => none }
    "10.0.0.1" "10.0.0.1" testRoute testRoute testHeaders testHeaders
    rfl rfl rfl rfl rfl rfl).1

/-- The outcome counter name charged by `Filter::complete` for each
decision outcome. -/
def statName : LimitStatus → String
  | LimitStatus.OK => "ratelimit.ok"
  | LimitStatus.Error => "ratelimit.error"
  | LimitStatus.OverLimit => "ratelimit.over_limit"

/-- C10 counterexample: a second invocation of `complete` on the same
filter is NOT detected or aborted — run after a first completion (phase
already `Complete`), it re-executes the completion logic in full,
incrementing `ratelimit.ok` again and resuming decoding again, exactly as
the first invocation did. -/
theorem C10_counterexample_second_invocation_reexecutes :
    complete testCfg testFilterCalling LimitStatus.OK
        = some (testFilterDone,
            [Action.counterInc "c" "ratelimit.ok", Action.continueDecoding])
    ∧ complete testCfg testFilterDone LimitStatus.OK
        = some (testFilterDone,
            [Action.counterInc "c" "ratelimit.ok", Action.continueDecoding]) := by
  constructor
  · decide
  · decide

/-- C10 amended: `complete` carries no reinvocation guard of its own — the
at-most-once discipline is the decision client's contract. Invoked again
after a first completion (phase `Complete` or `Responded`), with the
cluster resolved, it never faults and charges an outcome counter again. -/
theorem C10_amended_no_reinvocation_guard (cfg : FilterConfig) (f : Filter)
    (status : LimitStatus) (cl : String)
    (hcl : f.cluster = some cl)
    (hsecond : f.state = State.Complete ∨ f.state = State.Responded) :
    complete cfg f status ≠ none
    ∧ (∀ (f' : Filter) (acts : List Action),
        complete cfg f status = some (f', acts) →
        Action.counterInc cl (statName status) ∈ acts) := by
  constructor
  · simp only [complete, hcl]
    split
    · simp
    · split
      · simp
      · simp
  · intro f' acts h
    simp only [complete, hcl] at h
    split at h
    · injection h with h1
      injection h1 with h2 h3
      rw [← h3]
      cases status <;> simp [statName]
    · split at h
      · injection h with h1
        injection h1 with h2 h3
        rw [← h3]
        cases status <;> simp [statName]
      · injection h with h1
        injection h1 with h2 h3
        rw [← h3]
        cases status <;> simp [statName]

/-- Witness for C10's amended theorem: a second completion with `Error`
after a first completion neither faults nor skips the counter. -/
theorem C10_amended_no_reinvocation_guard_witness :
    complete testCfg testFilterDone LimitStatus.Error ≠ none
    ∧ Action.counterInc "c" (statName LimitStatus.Error) ∈
        [Action.counterInc "c" "ratelimit.error", Action.continueDecoding] := by
  have h := C10_amended_no_reinvocation_guard testCfg testFilterDone
    LimitStatus.Error "c" rfl (Or.inl rfl)
  exact ⟨h.1, h.2 testFilterDone
    [Action.counterInc "c" "ratelimit.error", Action.continueDecoding]
    (by decide)⟩

end Http.RateLimit
